import Mathlib

/-!
Shallow embedding of the relay synchronization pass of `src/commands/sync.rs`
(the `vauchi` CLI). Pure data and control flow are translated directly; the
external collaborators (vauchi-core storage, crypto, device-sync engine,
wire codec) are parameters (oracles) at exactly the call sites where the
source invokes them. Machine strings are Lean `String`s; byte buffers are
`List Nat`. Rust `?`-propagation and panics are modelled with `Except`
(a panic also aborts the enclosing pass, which `Except.error` captures;
the distinction is kept where a caller catches `Err` but cannot catch a
panic). Storage reads are modelled as total reads of the `LocalState`
record; storage writes carry explicit success oracles where the source
inspects their `Result`.
-/

namespace VauchiSync

/-! ### Hex encoding (the `hex` crate as used by the source) -/

/-- Value of one hexadecimal digit, accepting both cases like `hex::decode`. -/
def hexVal (c : Char) : Option Nat :=
  if '0' ≤ c ∧ c ≤ '9' then some (c.toNat - 48)
  else if 'a' ≤ c ∧ c ≤ 'f' then some (c.toNat - 87)
  else if 'A' ≤ c ∧ c ≤ 'F' then some (c.toNat - 55)
  else none

/-- Decode a list of hex characters two at a time; odd length fails,
mirroring `hex::decode`. -/
def hexDecodeChars : List Char → Option (List Nat)
  | [] => some []
  | [_] => none
  | a :: b :: rest =>
    match hexVal a, hexVal b, hexDecodeChars rest with
    | some x, some y, some r => some ((16 * x + y) :: r)
    | _, _, _ => none

/-- `hex::decode` on a string. -/
def hexDecode (s : String) : Option (List Nat) :=
  hexDecodeChars s.toList

/-- Lowercase hex digit, as produced by `hex::encode`. -/
def hexDigit (n : Nat) : Char :=
  if n < 10 then Char.ofNat (48 + n) else Char.ofNat (87 + n)

/-- `hex::encode`: lowercase hex of a byte list. -/
def hexEncode (bs : List Nat) : String :=
  String.mk (bs.map (fun b => [hexDigit (b / 16), hexDigit (b % 16)])).flatten

/-- The repeated source pattern `hex::decode(s)` followed by a
`bytes.len() == 32` check (sync.rs lines 256-269, 300-314, 600-610). -/
def hexDecode32 (s : String) : Option (List Nat) :=
  match hexDecode s with
  | some bs => if bs.length == 32 then some bs else none
  | none => none

/-- Rust byte-slicing `&s[..n]` panics when `n` exceeds the string length
(byte length; the two coincide on the ASCII ids this protocol carries). -/
def strSliceOutOfRange (n : Nat) (s : String) : Bool :=
  s.length < n

/-! ### Data model -/

/-- A stored contact; the source only reads its id and display name here.
`Contact::from_exchange(identity_key, card, secret)` derives the id as the
hex of the 32-byte identity key (it equals the sender's public id). -/
structure Contact where
  id : String
  displayName : String
  deriving DecidableEq

/-- `Contact::from_exchange`: the card argument only contributes the
display name in this model. -/
def Contact.fromExchange (identityKey : List Nat) (cardName : String) : Contact :=
  ⟨hexEncode identityKey, cardName⟩

/-- A persisted pending outbound update (`storage().get_pending_updates`). -/
structure PendingUpdate where
  id : String
  contactId : String
  updateType : String
  payload : List Nat
  deriving DecidableEq

/-- One entry of the device registry (`storage().load_device_registry`). -/
structure DeviceRec where
  deviceId : List Nat
  deviceName : String
  exchangePublicKey : List Nat
  isActive : Bool
  deriving DecidableEq

/-- The own card: an association of field labels to values (only the part
`apply_sync_item` touches through `update_field_value`/`save_own_card`). -/
abbrev Card := List (String × String)

/-- Local persistent state as seen through the storage collaborator. -/
structure LocalState where
  contacts : List Contact
  ownCard : Option Card
  pendingUpdates : List PendingUpdate
  deviceRegistry : Option (List DeviceRec)
  syncedVersions : List (List Nat × Nat)
  deriving DecidableEq

/-- `wb.get_contact(id)`. -/
def getContact (s : LocalState) (cid : String) : Option Contact :=
  s.contacts.find? (fun c => c.id == cid)

/-- `wb.add_contact(c)` (successful case). -/
def addContact (s : LocalState) (c : Contact) : LocalState :=
  { s with contacts := c :: s.contacts }

/-- `wb.remove_contact(id)` (successful case). -/
def removeContact (s : LocalState) (cid : String) : LocalState :=
  { s with contacts := s.contacts.filter (fun c => c.id != cid) }

/-- `wb.update_contact(c)`: replace the stored contact with the same id. -/
def updateContact (s : LocalState) (c : Contact) : LocalState :=
  { s with contacts := s.contacts.map (fun d => if d.id == c.id then c else d) }

/-- `orchestrator.mark_synced(device_id, version)` (successful case). -/
def markSynced (s : LocalState) (did : List Nat) (v : Nat) : LocalState :=
  { s with syncedVersions := (did, v) :: s.syncedVersions.filter (fun p => p.1 != did) }

/-- Last synced version recorded for a device. -/
def syncedVersionOf (s : LocalState) (did : List Nat) : Option Nat :=
  (s.syncedVersions.find? (fun p => p.1 == did)).map (fun p => p.2)

/-! ### Observable effects -/

/-- Outbound wire frames the pass can emit. -/
inductive OutFrame
  | handshakeFrame
  | encUpdateFrame (recipientId : String)
  | ackFrame (messageId : String)
  | deviceSyncAckFrame (messageId : String)
  | deviceSyncFrame (targetDeviceId : String)
  | pongFrame (data : List Nat)
  deriving DecidableEq

/-- Observable events: network sends and `display` log lines. -/
inductive Event
  | netSend (f : OutFrame)
  | warn (msg : String)
  | info (msg : String)
  | ok (msg : String)
  deriving DecidableEq

/-- The network sends among a list of events. -/
def netSends (evs : List Event) : List OutFrame :=
  evs.filterMap (fun e => match e with | .netSend f => some f | _ => none)

/-! ### Wire model (`protocol.rs` re-exports, modelled at the interface) -/

/-- `SimpleEncryptedUpdate`. -/
structure EncryptedUpdate where
  recipientId : String
  senderId : String
  ciphertext : List Nat
  deriving DecidableEq

/-- `SimpleDeviceSyncMessage`. -/
structure DeviceSyncMessage where
  senderDeviceId : String
  targetDeviceId : String
  encryptedPayload : List Nat
  version : Nat
  deriving DecidableEq

/-- `LegacyExchangeMessage` as consumed by `process_exchange_messages`. -/
structure ExchangeMessage where
  identityPublicKey : String
  ephemeralPublicKey : String
  displayName : String
  isResponse : Bool
  deriving DecidableEq

/-- `SimplePayload`: the payload kinds `receive_pending` matches on;
`other` stands for the wildcard arm. -/
inductive MessagePayload
  | handshakePayload (clientId : String) (deviceId : Option String)
  | encryptedUpdate (u : EncryptedUpdate)
  | acknowledgment (messageId : String)
  | deviceSyncMessage (m : DeviceSyncMessage)
  | deviceSyncAck (messageId : String) (syncedVersion : Nat)
  | other
  deriving DecidableEq

/-- A decoded envelope. -/
structure Envelope where
  messageId : String
  payload : MessagePayload
  deriving DecidableEq

/-- One `socket.read()` outcome in the drain loop. -/
inductive InFrame
  | binary (data : List Nat)
  | ping (data : List Nat)
  | textual
  | closeFrame
  | readTimeout
  | readError
  deriving DecidableEq

/-- Codec collaborator: `decode_message`, `ExchangeMessage::is_exchange`,
`ExchangeMessage::from_bytes`, and whether `encode_message` of an ack
succeeds (the source only sends the ack when encoding succeeded). -/
structure WireCodec where
  decode : List Nat → Option Envelope
  isExch : List Nat → Bool
  exchangeFromBytes : List Nat → Option ExchangeMessage
  encodeAckOk : String → Bool

/-! ### Inbound drain loop (`receive_pending`) -/

/-- The three ordered collections plus counter and events produced by one
drain; mirrors the tuple returned by `receive_pending`. -/
structure DrainResult where
  received : Nat
  exchanges : List ExchangeMessage
  cardUpdates : List (String × List Nat)
  deviceSyncs : List DeviceSyncMessage
  events : List Event
  deriving DecidableEq

/-- Ack events for an `EncryptedUpdate` envelope (sync.rs lines 166-173). -/
def ackEvents (wc : WireCodec) (mid : String) : List Event :=
  if wc.encodeAckOk mid then [.netSend (.ackFrame mid)] else []

/-- Ack events for a `DeviceSyncMessage` envelope (sync.rs lines 189-193). -/
def dsAckEvents (wc : WireCodec) (mid : String) : List Event :=
  if wc.encodeAckOk mid then [.netSend (.deviceSyncAckFrame mid)] else []

/-- The body of the `receive_pending` read loop over the stream of read
outcomes. `Except.error` models a Rust panic (the unguarded `&s[..n]`
slices in the display calls), which aborts the whole pass. -/
def receivePendingAux (wc : WireCodec) : List InFrame → Except String DrainResult
  | [] => .ok ⟨0, [], [], [], []⟩
  | f :: rest =>
    match f with
    | .closeFrame => .ok ⟨0, [], [], [], []⟩
    | .readTimeout => .ok ⟨0, [], [], [], []⟩
    | .readError => .ok ⟨0, [], [], [], [.warn "Connection issue"]⟩
    | .ping d =>
      (receivePendingAux wc rest).map fun r =>
        { r with events := .netSend (.pongFrame d) :: r.events }
    | .textual => receivePendingAux wc rest
    | .binary data =>
      match wc.decode data with
      | none =>
        (receivePendingAux wc rest).map fun r =>
          { r with events := .warn "Failed to decode message" :: r.events }
      | some env =>
        match env.payload with
        | .encryptedUpdate u =>
          if wc.isExch u.ciphertext then
            match wc.exchangeFromBytes u.ciphertext with
            | some ex =>
              (receivePendingAux wc rest).map fun r =>
                { r with
                  received := r.received + 1
                  exchanges := ex :: r.exchanges
                  events :=
                    .info ("Received exchange request from " ++ ex.displayName) ::
                      (ackEvents wc env.messageId ++ r.events) }
            | none =>
              (receivePendingAux wc rest).map fun r =>
                { r with
                  received := r.received + 1
                  events := ackEvents wc env.messageId ++ r.events }
          else
            if strSliceOutOfRange 8 u.senderId then
              .error "panic: byte index 8 is out of bounds of sender_id"
            else
              (receivePendingAux wc rest).map fun r =>
                { r with
                  received := r.received + 1
                  cardUpdates := (u.senderId, u.ciphertext) :: r.cardUpdates
                  events :=
                    .info ("Received encrypted update from " ++ u.senderId.take 8) ::
                      (ackEvents wc env.messageId ++ r.events) }
        | .acknowledgment mid =>
          if strSliceOutOfRange 8 mid then
            .error "panic: byte index 8 is out of bounds of message_id"
          else
            (receivePendingAux wc rest).map fun r =>
              { r with events := .info ("Message " ++ mid.take 8 ++ " acknowledged") :: r.events }
        | .deviceSyncMessage m =>
          if strSliceOutOfRange 16 m.senderDeviceId then
            .error "panic: byte index 16 is out of bounds of sender_device_id"
          else
            (receivePendingAux wc rest).map fun r =>
              { r with
                received := r.received + 1
                deviceSyncs := m :: r.deviceSyncs
                events :=
                  .info ("Received device sync from device " ++ m.senderDeviceId.take 16) ::
                    (dsAckEvents wc env.messageId ++ r.events) }
        | .deviceSyncAck mid _ =>
          if strSliceOutOfRange 8 mid then
            .error "panic: byte index 8 is out of bounds of message_id"
          else
            (receivePendingAux wc rest).map fun r =>
              { r with events := .info ("Device sync " ++ mid.take 8 ++ " acknowledged") :: r.events }
        | .handshakePayload _ _ => receivePendingAux wc rest
        | .other => receivePendingAux wc rest

/-- `receive_pending(socket, _wb)`: the local-state handle is threaded only
because the Rust signature takes it; the body never uses it. -/
def receivePending (wc : WireCodec) (frames : List InFrame) (s : LocalState) :
    Except String DrainResult × LocalState :=
  (receivePendingAux wc frames, s)

/-! ### Outbound pending card updates (`send_pending_updates`) -/

/-- `storage().delete_pending_update(id)`: removal by identifier. -/
def deletePendingUpdate (uid : String) (store : List PendingUpdate) : List PendingUpdate :=
  store.filter (fun u => u.id != uid)

/-- Whether one pending update gets sent and hence deleted: the source
skips non-`card_delta` records, then encodes, then sends. -/
def updSendSuccess (encodeOk sendOk : PendingUpdate → Bool) (u : PendingUpdate) : Bool :=
  u.updateType == "card_delta" && encodeOk u && sendOk u

/-- The inner loop of `send_pending_updates` over the pending snapshot of
one contact, threading the live store for deletions. Returns the number
sent, the store, and the events. -/
def processPendingList (encodeOk sendOk : PendingUpdate → Bool) (cname : String) :
    List PendingUpdate → List PendingUpdate → Nat × List PendingUpdate × List Event
  | [], store => (0, store, [])
  | u :: rest, store =>
    if u.updateType != "card_delta" then
      processPendingList encodeOk sendOk cname rest store
    else if encodeOk u then
      if sendOk u then
        let r := processPendingList encodeOk sendOk cname rest (deletePendingUpdate u.id store)
        (r.1 + 1, r.2.1,
          .netSend (.encUpdateFrame u.contactId) :: .info ("Sent update to " ++ cname) :: r.2.2)
      else
        let r := processPendingList encodeOk sendOk cname rest store
        (r.1, r.2.1, .netSend (.encUpdateFrame u.contactId) :: r.2.2)
    else
      let r := processPendingList encodeOk sendOk cname rest store
      (r.1, r.2.1, .warn "Failed to encode update" :: r.2.2)

/-- `send_pending_updates`: iterate all contacts, fetch each one's pending
updates from the live store, send, and delete the sent ones. -/
def sendPendingUpdates (encodeOk sendOk : PendingUpdate → Bool) :
    List Contact → List PendingUpdate → Nat × List PendingUpdate × List Event
  | [], store => (0, store, [])
  | c :: cs, store =>
    let r1 := processPendingList encodeOk sendOk c.displayName
      (store.filter (fun u => u.contactId == c.id)) store
    let r2 := sendPendingUpdates encodeOk sendOk cs r1.2.1
    (r1.1 + r2.1, r2.2.1, r1.2.2 ++ r2.2.2)

/-! ### Device sync items (`apply_sync_item`) -/

/-- `ContactSyncData` as consumed here: id, display name, serialized card,
and the 32-byte public key (the opaque shared key is not represented since
the model's `Contact` does not retain it). -/
structure ContactSyncData where
  id : String
  displayName : String
  cardJson : String
  publicKey : List Nat
  deriving DecidableEq

/-- `SyncItem` variants matched by `apply_sync_item`; fields the arm
ignores with `..` are elided. -/
inductive SyncItem
  | contactAdded (contactData : ContactSyncData) (timestamp : Nat)
  | contactRemoved (contactId : String)
  | cardUpdated (fieldLabel : String) (newValue : String)
  | visibilityChanged (contactId : String) (fieldLabel : String) (isVisible : Bool)
  | labelChange
  | contactTrustChanged (contactId : String) (recoveryTrusted : Bool)
  | deletionScheduled (executeAt : Nat)
  | deletionCancelled
  deriving DecidableEq

/-- Consistency of honest sync data: `ContactSyncData::from_contact` fills
`id` with the contact id that `Contact::from_exchange` derives from the
public key. -/
def SyncItem.wf : SyncItem → Prop
  | .contactAdded cd _ => cd.id = hexEncode cd.publicKey
  | _ => True

instance : DecidablePred SyncItem.wf := by
  intro it
  cases it <;> simp [SyncItem.wf] <;> infer_instance

/-- Results of the storage and serde collaborator calls `apply_sync_item`
makes: whether each write succeeds, whether `update_field_value` succeeds,
and the card `serde_json::from_str` parses to (returning its display name,
the only card component the model's `Contact` keeps). -/
structure StorageOracle where
  addContactOk : String → Bool
  removeContactOk : String → Bool
  updateContactOk : String → Bool
  saveOwnCardOk : Bool
  updateFieldOk : String → String → Bool
  parseCardName : String → Option String

/-- `card.update_field_value(label, value)` in its successful case: update
the field or add it (per the source's comment). -/
def upsertField (l v : String) (card : Card) : Card :=
  if card.any (fun p => p.1 == l) then
    card.map (fun p => if p.1 == l then (l, v) else p)
  else
    card ++ [(l, v)]

/-- Outcome of `apply_sync_item`: a Rust `Ok`, a Rust `Err` (caught by the
caller as a warning), or a panic (aborts the process, uncatchable). -/
inductive ApplyOutcome
  | applied
  | failed (msg : String)
  | panicked (msg : String)
  deriving DecidableEq

/-- `apply_sync_item(wb, item)`: the returned state reflects any mutation
performed before an error or panic. -/
def applySyncItem (sto : StorageOracle) (s : LocalState) : SyncItem → ApplyOutcome × LocalState × List Event
  | .contactAdded cd _ =>
    match getContact s cd.id with
    | some _ => (.applied, s, [])
    | none =>
      let cardName := (sto.parseCardName cd.cardJson).getD cd.displayName
      let contact := Contact.fromExchange cd.publicKey cardName
      if sto.addContactOk contact.id then
        (.applied, addContact s contact, [.ok ("Synced new contact: " ++ cd.displayName)])
      else
        (.failed "add_contact", s, [])
  | .contactRemoved cid =>
    match getContact s cid with
    | some _ =>
      if sto.removeContactOk cid then
        if strSliceOutOfRange 8 cid then
          (.panicked "panic: byte index 8 is out of bounds of contact_id", removeContact s cid, [])
        else
          (.applied, removeContact s cid, [.info ("Removed contact: " ++ cid.take 8 ++ "...")])
      else
        (.failed "remove_contact", s, [])
    | none => (.applied, s, [])
  | .cardUpdated l v =>
    match s.ownCard with
    | some card =>
      if sto.updateFieldOk l v then
        if sto.saveOwnCardOk then
          (.applied, { s with ownCard := some (upsertField l v card) },
            [.info ("Synced card field: " ++ l)])
        else
          (.failed "save_own_card", s, [])
      else
        (.applied, s, [])
    | none => (.applied, s, [])
  | .visibilityChanged cid l vis =>
    if strSliceOutOfRange 8 cid then
      (.panicked "panic: byte index 8 is out of bounds of contact_id", s, [])
    else
      (.applied, s,
        [.info ("Synced visibility for contact " ++ cid.take 8 ++ "... field " ++ l ++ " = " ++ toString vis)])
  | .labelChange => (.applied, s, [.info "Synced label change"])
  | .contactTrustChanged cid tr =>
    (.applied, s,
      [.info ("Synced trust change for contact " ++ cid.take (min 8 cid.length) ++ "... = " ++ toString tr)])
  | .deletionScheduled at_ =>
    (.applied, s, [.info ("Synced deletion schedule (executes at " ++ toString at_ ++ ")")])
  | .deletionCancelled => (.applied, s, [.info "Synced deletion cancellation"])

/-- State reached by `apply_sync_item` (errors leave the pre-call state,
matching the per-arm single mutating collaborator call). -/
def applySyncItemState (sto : StorageOracle) (s : LocalState) (it : SyncItem) : LocalState :=
  (applySyncItem sto s it).2.1

/-- The `for item in &applied` loop of `process_device_sync_messages`:
a `failed` outcome is downgraded to a warning, a panic aborts the pass
(the returned state keeps the mutations already persisted). -/
def applyItems (sto : StorageOracle) (s : LocalState) :
    List SyncItem → Except String Unit × LocalState × List Event
  | [] => (.ok (), s, [])
  | it :: rest =>
    match applySyncItem sto s it with
    | (.panicked msg, s', evs) => (.error msg, s', evs)
    | (.applied, s', evs) =>
      let r := applyItems sto s' rest
      (r.1, r.2.1, evs ++ r.2.2)
    | (.failed e, s', evs) =>
      let r := applyItems sto s' rest
      (r.1, r.2.1, evs ++ [Event.warn ("Failed to apply sync item: " ++ e)] ++ r.2.2)

/-! ### Device sync inbound (`process_device_sync_messages`) -/

/-- The device-sync engine collaborator: decryption, serde parse, merge
(`process_incoming`, `none` standing for its `Err`), and whether
`mark_synced` succeeds. -/
structure DsOracle where
  decryptFromDevice : List Nat → List Nat → Option (List Nat)
  parseItems : List Nat → Option (List SyncItem)
  processIncoming : List SyncItem → Option (List SyncItem)
  markSyncedOk : List Nat → Nat → Bool

/-- `registry.find_device(&id)`. -/
def findDevice (regs : List DeviceRec) (did : List Nat) : Option DeviceRec :=
  regs.find? (fun d => d.deviceId == did)

/-- Processing of one received `DeviceSyncMessage` (the loop body of
`process_device_sync_messages`), returning the increment of the
`processed` counter. An `Except.error` is a panic inside
`apply_sync_item`; it skips the trailing `mark_synced`, as the source
then never reaches it. -/
def processOneDeviceSync (dso : DsOracle) (sto : StorageOracle) (regs : List DeviceRec)
    (s : LocalState) (msg : DeviceSyncMessage) : Except String Nat × LocalState × List Event :=
  match hexDecode32 msg.senderDeviceId with
  | none => (.ok 0, s, [.warn "Invalid sender device ID in sync message"])
  | some did =>
    match findDevice regs did with
    | none =>
      if strSliceOutOfRange 16 msg.senderDeviceId then
        (.error "panic: byte index 16 is out of bounds of sender_device_id", s, [])
      else
        (.ok 0, s, [.warn ("Sync from unknown device: " ++ msg.senderDeviceId.take 16 ++ "...")])
    | some sender =>
      match dso.decryptFromDevice sender.exchangePublicKey msg.encryptedPayload with
      | none => (.ok 0, s, [.warn ("Failed to decrypt sync from " ++ sender.deviceName)])
      | some payload =>
        match dso.parseItems payload with
        | none => (.ok 0, s, [.warn ("Failed to parse sync items from " ++ sender.deviceName)])
        | some items =>
          let step : Except String Nat × LocalState × List Event :=
            match dso.processIncoming items with
            | some applied =>
              let r := applyItems sto s applied
              (r.1.map (fun _ => 1), r.2.1, r.2.2)
            | none =>
              (.ok 0, s, [.warn ("Failed to process sync from " ++ sender.deviceName)])
          match step.1 with
          | .error e => (.error e, step.2.1, step.2.2)
          | .ok inc =>
            if dso.markSyncedOk did msg.version then
              (.ok inc, markSynced step.2.1 did msg.version, step.2.2)
            else
              (.ok inc, step.2.1, step.2.2 ++ [Event.warn "Failed to mark sync complete"])

/-- The message loop of `process_device_sync_messages`. -/
def processDeviceSyncLoop (dso : DsOracle) (sto : StorageOracle) (regs : List DeviceRec)
    (s : LocalState) : List DeviceSyncMessage → Except String Nat × LocalState × List Event
  | [] => (.ok 0, s, [])
  | m :: ms =>
    match processOneDeviceSync dso sto regs s m with
    | (.error e, s', evs) => (.error e, s', evs)
    | (.ok n, s', evs) =>
      let r := processDeviceSyncLoop dso sto regs s' ms
      (r.1.map (fun n2 => n + n2), r.2.1, evs ++ r.2.2)

/-- `process_device_sync_messages(wb, messages, identity)`. -/
def processDeviceSyncMessages (dso : DsOracle) (sto : StorageOracle)
    (msgs : List DeviceSyncMessage) (s : LocalState) :
    Except String Nat × LocalState × List Event :=
  if msgs.isEmpty then (.ok 0, s, [])
  else
    match s.deviceRegistry with
    | none => (.ok 0, s, [.warn "Received device sync but no registry found"])
    | some regs => processDeviceSyncLoop dso sto regs s msgs

/-! ### Exchange applier (`process_exchange_messages` and
`send_exchange_response`) -/

/-- Collaborator results for the exchange applier: key agreement, the
`set_display_name` validity check, device-sync recording, ratchet setup,
and the two network steps of `send_exchange_response`. -/
structure ExchangeOracle where
  x3dhRespond : List Nat → List Nat → Option (List Nat)
  setDisplayNameOk : String → Bool
  recordDeviceSyncOk : Bool
  ratchetOk : Bool
  respConnectOk : Bool
  respSendOk : Bool

/-- `send_exchange_response(config, our_identity, recipient_id)`: opens a
fresh relay connection, sends a handshake and then the response as an
encrypted update. The events record the frames put on the wire before
any failure. -/
def sendExchangeResponse (exo : ExchangeOracle) (recipientId : String) :
    Except String Unit × List Event :=
  if exo.respConnectOk then
    if exo.respSendOk then
      (.ok (), [.netSend .handshakeFrame, .netSend (.encUpdateFrame recipientId)])
    else
      (.error "response send failed", [.netSend .handshakeFrame])
  else
    (.error "response connect failed", [])

/-- Events of the post-add collaborator calls for a new contact: device
fan-out recording, ratchet setup, and the inline exchange response
(sync.rs lines 344-367). -/
def newContactFollowUp (exo : ExchangeOracle) (pid : String) (name : String) : List Event :=
  (if exo.recordDeviceSyncOk then [] else [Event.warn "Could not record for device sync"]) ++
  (if exo.ratchetOk then [] else [Event.warn "Failed to initialize ratchet"]) ++
  [Event.ok ("Added contact: " ++ name),
   Event.info ("Sending our name to " ++ name ++ "...")] ++
  (let r := sendExchangeResponse exo pid
   r.2 ++ (match r.1 with
     | .ok _ => [Event.ok "Response sent"]
     | .error _ => [Event.warn "Could not send response"]))

/-- The message loop of `process_exchange_messages`, returning
`(added, updated)`. `Except.error` models the `?` on `update_contact`
and `add_contact`, which aborts the whole pass. -/
def processExchangeLoop (exo : ExchangeOracle) (sto : StorageOracle) :
    List ExchangeMessage → LocalState → Except String (Nat × Nat) × LocalState × List Event
  | [], s => (.ok (0, 0), s, [])
  | ex :: rest, s =>
    let cont := fun (s' : LocalState) (evs : List Event) (da du : Nat) =>
      let r := processExchangeLoop exo sto rest s'
      (r.1.map (fun p => (da + p.1, du + p.2)), r.2.1, evs ++ r.2.2)
    match hexDecode32 ex.identityPublicKey with
    | none => cont s [.warn ("Invalid identity key from " ++ ex.displayName)] 0 0
    | some ik =>
      let pid := hexEncode ik
      if ex.isResponse then
        match getContact s pid with
        | some c =>
          if c.displayName != ex.displayName then
            if exo.setDisplayNameOk ex.displayName then
              if sto.updateContactOk pid then
                cont (updateContact s { c with displayName := ex.displayName })
                  [.ok ("Updated contact name: " ++ ex.displayName)] 0 1
              else
                (.error "update_contact failed", s, [])
            else
              cont s [.warn "Failed to update contact name"] 0 0
          else
            cont s [.info ("Contact " ++ ex.displayName ++ " already has correct name")] 0 0
        | none =>
          cont s [.warn ("Received response from unknown contact: " ++ ex.displayName)] 0 0
      else
        match hexDecode32 ex.ephemeralPublicKey with
        | none => cont s [.warn ("Invalid ephemeral key from " ++ ex.displayName)] 0 0
        | some ek =>
          match getContact s pid with
          | some _ => cont s [.info (ex.displayName ++ " is already a contact")] 0 0
          | none =>
            match exo.x3dhRespond ik ek with
            | none => cont s [.warn ("X3DH key agreement failed for " ++ ex.displayName)] 0 0
            | some _secret =>
              let contact := Contact.fromExchange ik ex.displayName
              if sto.addContactOk contact.id then
                cont (addContact s contact) (newContactFollowUp exo pid ex.displayName) 1 0
              else
                (.error "add_contact failed", s, [])

/-- `process_exchange_messages(wb, messages, config)`. -/
def processExchangeMessages (exo : ExchangeOracle) (sto : StorageOracle)
    (msgs : List ExchangeMessage) (s : LocalState) :
    Except String (Nat × Nat) × LocalState × List Event :=
  processExchangeLoop exo sto msgs s

/-! ### Card-update applier (`process_card_updates`) -/

/-- The ratchet/delta collaborator: `wb.process_card_update` returns the
changed field labels, or fails. The mutation it performs lives inside the
collaborator (the contact's stored card), which this state model does not
retain; contacts, pending updates and the registry are untouched. -/
structure CardOracle where
  processCardUpdate : String → List Nat → Option (List String)

/-- The loop of `process_card_updates` over the `(sender_id, ciphertext)`
pairs; the unknown-sender warning slices `&sender_id[..8]` and can
panic. -/
def processCardUpdatesLoop (co : CardOracle) (s : LocalState) :
    List (String × List Nat) → Except String Nat × List Event
  | [] => (.ok 0, [])
  | (senderId, ct) :: rest =>
    match getContact s senderId with
    | none =>
      if strSliceOutOfRange 8 senderId then
        (.error "panic: byte index 8 is out of bounds of sender_id", [])
      else
        let r := processCardUpdatesLoop co s rest
        (r.1, .warn ("Update from unknown contact: " ++ senderId.take 8 ++ "...") :: r.2)
    | some c =>
      match co.processCardUpdate senderId ct with
      | some changed =>
        let ev :=
          if changed.isEmpty then
            Event.info (c.displayName ++ " sent an update (no changes)")
          else
            Event.ok (c.displayName ++ " updated: " ++ String.intercalate ", " changed)
        let r := processCardUpdatesLoop co s rest
        (r.1.map (fun n => n + 1), ev :: r.2)
      | none =>
        let r := processCardUpdatesLoop co s rest
        (r.1, .warn ("Failed to process update from " ++ c.displayName) :: r.2)

/-- `process_card_updates(wb, updates)`. -/
def processCardUpdates (co : CardOracle) (updates : List (String × List Nat))
    (s : LocalState) : Except String Nat × List Event :=
  processCardUpdatesLoop co s updates

/-! ### Outbound device sync (`send_device_sync`) -/

/-- The device-sync engine and codec results used when fanning out to the
other registered devices. -/
structure SendSyncOracle where
  orchestratorLoadOk : Bool
  ourDeviceId : List Nat
  pendingForDevice : List Nat → List SyncItem
  serializeOk : List Nat → Bool
  encryptOk : List Nat → Bool
  encodeOk : List Nat → Bool
  sendOk : List Nat → Bool

/-- The per-device loop of `send_device_sync`. -/
def sendDeviceSyncLoop (sso : SendSyncOracle) : List DeviceRec → Nat × List Event
  | [] => (0, [])
  | d :: ds =>
    let r := sendDeviceSyncLoop sso ds
    if d.deviceId == sso.ourDeviceId then r
    else if !d.isActive then r
    else if (sso.pendingForDevice d.deviceId).isEmpty then r
    else if !sso.serializeOk d.deviceId then
      (r.1, .warn "Failed to serialize sync items" :: r.2)
    else if !sso.encryptOk d.deviceId then
      (r.1, .warn "Failed to encrypt for device" :: r.2)
    else if sso.encodeOk d.deviceId then
      if sso.sendOk d.deviceId then
        (r.1 + 1,
          .netSend (.deviceSyncFrame (hexEncode d.deviceId)) ::
            .info ("Sent sync items to device " ++ d.deviceName) :: r.2)
      else
        (r.1, .netSend (.deviceSyncFrame (hexEncode d.deviceId)) :: r.2)
    else
      (r.1, .warn "Failed to encode device sync" :: r.2)

/-- `send_device_sync(wb, socket, identity)`: nothing to do without a
registry or with a single device; a failed orchestrator load is a
warning. -/
def sendDeviceSync (sso : SendSyncOracle) (s : LocalState) : Nat × List Event :=
  match s.deviceRegistry with
  | none => (0, [])
  | some regs =>
    if regs.length ≤ 1 then (0, [])
    else if !sso.orchestratorLoadOk then (0, [.warn "Failed to load device sync state"])
    else sendDeviceSyncLoop sso regs

/-! ### The sync pass (`run`) -/

/-- The socket timeouts the pass configures: a 1000 ms read timeout is set
on the underlying stream after connecting (sync.rs lines 839-841); no
connection timeout is ever configured — `tungstenite::connect` is called
with its defaults (line 831). -/
def readTimeoutMillis : Option Nat := some 1000

/-- The connection timeout configured by the pass: none exists in the
source. -/
def connectTimeoutMillis : Option Nat := none

/-- Environment of one `run` invocation: outcomes of the bootstrap and
connection steps, the inbound frame stream, and all collaborator
oracles. -/
structure RunEnv where
  initialized : Bool
  identityLoadOk : Bool
  hasIdentity : Bool
  connectOk : Bool
  setReadTimeoutOk : Bool
  handshakeSendOk : Bool
  wc : WireCodec
  frames : List InFrame
  exo : ExchangeOracle
  sto : StorageOracle
  cardo : CardOracle
  dso : DsOracle
  sso : SendSyncOracle
  encodePendingOk : PendingUpdate → Bool
  sendPendingOk : PendingUpdate → Bool

/-- The summary string built at the end of `run` (lines 884-918): the
per-category pieces are appended only when non-zero; a pass with zero
total changes prints the fixed no-work line instead. -/
def buildSummary (received a u cards sent dp ds : Nat) : String :=
  if received + a + u + cards + sent + dp + ds > 0 then
    "Sync complete: " ++ toString received ++ " received" ++
      (if a > 0 then ", " ++ toString a ++ " contacts added" else "") ++
      (if u > 0 then ", " ++ toString u ++ " contacts updated" else "") ++
      (if cards > 0 then ", " ++ toString cards ++ " cards updated" else "") ++
      (if sent > 0 then ", " ++ toString sent ++ " sent" else "") ++
      (if dp > 0 then ", " ++ toString dp ++ " device syncs received" else "") ++
      (if ds > 0 then ", " ++ toString ds ++ " device syncs sent" else "")
  else
    "Sync complete: No new messages or pending updates"

/-- `run(config)`: phase composition of one sync pass. Fatal steps before
the drain abort with the error and no state mutation; later phases thread
the state and accumulate events. (The aha-moment tracker, a CLI
presentation detail, is not modelled.) -/
def runSync (env : RunEnv) (s : LocalState) :
    Except String String × LocalState × List Event :=
  if !env.initialized then
    (.error "Vauchi not initialized. Run vauchi init first.", s, [])
  else if !env.identityLoadOk then (.error "identity import failed", s, [])
  else if !env.hasIdentity then (.error "No identity found", s, [])
  else if !env.connectOk then (.error "connect failed", s, [])
  else if !env.setReadTimeoutOk then (.error "set_read_timeout failed", s, [])
  else if !env.handshakeSendOk then
    (.error "handshake send failed", s, [.netSend .handshakeFrame])
  else
    let hs : List Event := [.netSend .handshakeFrame]
    match receivePendingAux env.wc env.frames with
    | .error e => (.error e, s, hs)
    | .ok dr =>
      match processExchangeLoop env.exo env.sto dr.exchanges s with
      | (.error e, s1, evs1) => (.error e, s1, hs ++ dr.events ++ evs1)
      | (.ok (added, updated), s1, evs1) =>
        match processCardUpdates env.cardo dr.cardUpdates s1 with
        | (.error e, evs2) => (.error e, s1, hs ++ dr.events ++ evs1 ++ evs2)
        | (.ok cards, evs2) =>
          match processDeviceSyncMessages env.dso env.sto dr.deviceSyncs s1 with
          | (.error e, s2, evs3) => (.error e, s2, hs ++ dr.events ++ evs1 ++ evs2 ++ evs3)
          | (.ok dp, s2, evs3) =>
            let rp := sendPendingUpdates env.encodePendingOk env.sendPendingOk s2.contacts
              s2.pendingUpdates
            let s3 := { s2 with pendingUpdates := rp.2.1 }
            let rd := sendDeviceSync env.sso s3
            (.ok (buildSummary dr.received added updated cards rp.1 dp rd.1), s3,
              hs ++ dr.events ++ evs1 ++ evs2 ++ evs3 ++ rp.2.2 ++ rd.2)

/-- Exit status of the CLI process: `main` propagates the `Result` of
`commands::sync::run`, so an error exits non-zero and success exits 0. -/
def mainExitCode (r : Except String String) : Nat :=
  match r with
  | .ok _ => 0
  | .error _ => 1

/-! ### Lemmas on the pending-update dispatch -/

/-- Identifiers of the snapshot entries whose send succeeds. -/
def successIds (encodeOk sendOk : PendingUpdate → Bool) (xs : List PendingUpdate) : List String :=
  (xs.filter (updSendSuccess encodeOk sendOk)).map PendingUpdate.id

lemma bool_distrib_helper (A B C : Bool) :
    ((!(A && C)) && (!(A && B))) = !(A && (B || C)) := by
  cases A <;> cases B <;> cases C <;> rfl

lemma processPendingList_store (encodeOk sendOk : PendingUpdate → Bool) (cname : String)
    (xs : List PendingUpdate) (store : List PendingUpdate) :
    (processPendingList encodeOk sendOk cname xs store).2.1 =
      store.filter (fun u => !decide (u.id ∈ successIds encodeOk sendOk xs)) := by
  induction xs generalizing store with
  | nil => simp [processPendingList, successIds]
  | cons u rest ih =>
    by_cases ht : (u.updateType == "card_delta") = true
    · by_cases he : encodeOk u = true
      · by_cases hs : sendOk u = true
        · have hsucc : updSendSuccess encodeOk sendOk u = true := by
            simp [updSendSuccess, ht, he, hs]
          have hids : successIds encodeOk sendOk (u :: rest) =
              u.id :: successIds encodeOk sendOk rest := by
            simp [successIds, List.filter_cons, hsucc]
          simp only [processPendingList, ht, he, hs, bne, Bool.not_true, if_false, if_true]
          rw [ih, hids, deletePendingUpdate, List.filter_filter]
          apply List.filter_congr
          intro v _
          by_cases h1 : v.id = u.id <;> by_cases h2 : v.id ∈ successIds encodeOk sendOk rest <;>
            simp [h1, h2, bne]
        · have hsucc : updSendSuccess encodeOk sendOk u = false := by
            simp [updSendSuccess, hs]
          have hids : successIds encodeOk sendOk (u :: rest) =
              successIds encodeOk sendOk rest := by
            simp [successIds, List.filter_cons, hsucc]
          rw [hids]
          simp only [processPendingList, ht, he, hs, bne, Bool.not_true]
          simp only [Bool.false_eq_true, if_false, if_true, ih]
      · have hsucc : updSendSuccess encodeOk sendOk u = false := by
          simp [updSendSuccess, he]
        have hids : successIds encodeOk sendOk (u :: rest) =
            successIds encodeOk sendOk rest := by
          simp [successIds, List.filter_cons, hsucc]
        rw [hids]
        simp only [processPendingList, ht, bne, Bool.not_true]
        simp only [Bool.false_eq_true, if_false, if_true, he, ih]
    · have ht' : (u.updateType != "card_delta") = true := by
        simp [bne, ht]
      have hsucc : updSendSuccess encodeOk sendOk u = false := by
        simp [updSendSuccess, ht]
      have hids : successIds encodeOk sendOk (u :: rest) =
          successIds encodeOk sendOk rest := by
        simp [successIds, List.filter_cons, hsucc]
      rw [hids]
      simp only [processPendingList, ht', if_true, ih]

lemma mem_map_id_filter (p : PendingUpdate → Bool) (store : List PendingUpdate)
    (h : (store.map PendingUpdate.id).Nodup) (v : PendingUpdate) (hv : v ∈ store) :
    (v.id ∈ (store.filter p).map PendingUpdate.id) ↔ p v = true := by
  constructor
  · intro hmem
    obtain ⟨w, hw, hwid⟩ := List.mem_map.mp hmem
    have hweq : w = v :=
      List.inj_on_of_nodup_map h (List.mem_of_mem_filter hw) hv hwid
    have := (List.mem_filter.mp hw).2
    rwa [hweq] at this
  · intro hp
    exact List.mem_map_of_mem _ (List.mem_filter.mpr ⟨hv, hp⟩)

/-- C1: in `send_pending_updates`, exactly the pending card-delta updates
whose encode and transport send succeeded (for a listed contact) are
deleted from the pending-update store; a failed send leaves its record
intact and does not prevent the remaining items from being dispatched and
deleted. -/
theorem sendPendingUpdates_deletes_exactly_sent
    (encodeOk sendOk : PendingUpdate → Bool) (contacts : List Contact)
    (store : List PendingUpdate) (h : (store.map PendingUpdate.id).Nodup) :
    (sendPendingUpdates encodeOk sendOk contacts store).2.1 =
      store.filter (fun u => !(updSendSuccess encodeOk sendOk u &&
        contacts.any (fun c => u.contactId == c.id))) := by
  induction contacts generalizing store with
  | nil => simp [sendPendingUpdates]
  | cons c cs ih =>
    simp only [sendPendingUpdates]
    rw [processPendingList_store]
    have hstep :
        store.filter (fun u => !decide (u.id ∈
            successIds encodeOk sendOk (store.filter (fun v => v.contactId == c.id)))) =
          store.filter (fun u => !(updSendSuccess encodeOk sendOk u && (u.contactId == c.id))) := by
      apply List.filter_congr
      intro v hv
      have hm := mem_map_id_filter
        (fun u => updSendSuccess encodeOk sendOk u && (u.contactId == c.id)) store h v hv
      simp only [successIds, List.filter_filter]
      simp [hm]
      congr 1
    rw [hstep]
    have hnd : ((store.filter (fun u =>
        !(updSendSuccess encodeOk sendOk u && (u.contactId == c.id)))).map
          PendingUpdate.id).Nodup :=
      h.sublist (List.Sublist.map PendingUpdate.id (List.filter_sublist store))
    rw [ih _ hnd, List.filter_filter]
    apply List.filter_congr
    intro u _
    cases hA : updSendSuccess encodeOk sendOk u <;>
      cases hB : (u.contactId == c.id) <;>
        cases hC : cs.any (fun c2 => u.contactId == c2.id) <;>
          simp [hA, hB, hC, List.any_cons]

/-- Sample pending card-delta update used by the C1 witness. -/
def sampleUpd (i : String) : PendingUpdate :=
  ⟨i, "bob", "card_delta", []⟩

/-- Witness for C1: three pending updates, the transport fails on the
second; exactly the other two are deleted (N-1 of N), the failed one
remains, and the sent counter reports 2. -/
theorem sendPendingUpdates_deletes_exactly_sent_witness :
    (([sampleUpd "u1", sampleUpd "u2", sampleUpd "u3"].map PendingUpdate.id).Nodup) ∧
    (sendPendingUpdates (fun _ => true) (fun u => u.id != "u2")
        [⟨"bob", "Bob"⟩] [sampleUpd "u1", sampleUpd "u2", sampleUpd "u3"]).2.1 =
      [sampleUpd "u2"] ∧
    (sendPendingUpdates (fun _ => true) (fun u => u.id != "u2")
        [⟨"bob", "Bob"⟩] [sampleUpd "u1", sampleUpd "u2", sampleUpd "u3"]).1 = 2 := by
  refine ⟨by decide, ?_, by decide⟩
  rw [sendPendingUpdates_deletes_exactly_sent (fun _ => true) (fun u => u.id != "u2")
    [⟨"bob", "Bob"⟩] [sampleUpd "u1", sampleUpd "u2", sampleUpd "u3"] (by decide)]
  decide

/-! ### Characterization of the drain loop -/

/-- Read outcomes that terminate the drain loop (`Close`, the idle
`WouldBlock` timeout, and any other read error). -/
def isDrainTerminator (f : InFrame) : Bool :=
  match f with
  | .closeFrame => true
  | .readTimeout => true
  | .readError => true
  | _ => false

/-- The frames the drain loop actually consumes: the longest prefix
before a terminating read outcome. -/
def drainPrefix : List InFrame → List InFrame
  | [] => []
  | f :: rest => if isDrainTerminator f then [] else f :: drainPrefix rest

/-- The exchange message a frame contributes, if any. -/
def classifyExchange (wc : WireCodec) (f : InFrame) : Option ExchangeMessage :=
  match f with
  | .binary data =>
    match wc.decode data with
    | some env =>
      match env.payload with
      | .encryptedUpdate u =>
        if wc.isExch u.ciphertext then wc.exchangeFromBytes u.ciphertext else none
      | _ => none
    | none => none
  | _ => none

/-- The card update a frame contributes, if any. -/
def classifyCardUpdate (wc : WireCodec) (f : InFrame) : Option (String × List Nat) :=
  match f with
  | .binary data =>
    match wc.decode data with
    | some env =>
      match env.payload with
      | .encryptedUpdate u =>
        if wc.isExch u.ciphertext then none else some (u.senderId, u.ciphertext)
      | _ => none
    | none => none
  | _ => none

/-- The device-sync payload a frame contributes, if any. -/
def classifyDeviceSync (wc : WireCodec) (f : InFrame) : Option DeviceSyncMessage :=
  match f with
  | .binary data =>
    match wc.decode data with
    | some env =>
      match env.payload with
      | .deviceSyncMessage m => some m
      | _ => none
    | none => none
  | _ => none

/-- Whether a frame increments the received counter: only decoded
`EncryptedUpdate` and `DeviceSyncMessage` envelopes do. -/
def countsReceived (wc : WireCodec) (f : InFrame) : Bool :=
  match f with
  | .binary data =>
    match wc.decode data with
    | some env =>
      match env.payload with
      | .encryptedUpdate _ => true
      | .deviceSyncMessage _ => true
      | _ => false
    | none => false
  | _ => false

lemma except_map_ok {α β γ : Type} (g : α → β) (e : Except γ α) (r : β)
    (h : e.map g = .ok r) : ∃ a, e = .ok a ∧ r = g a := by
  cases e with
  | error err => simp [Except.map] at h
  | ok a =>
    simp [Except.map] at h
    exact ⟨a, rfl, h.symm⟩

lemma receivePendingAux_ok_spec (wc : WireCodec) (frames : List InFrame) :
    ∀ r, receivePendingAux wc frames = .ok r →
      r.exchanges = (drainPrefix frames).filterMap (classifyExchange wc) ∧
      r.cardUpdates = (drainPrefix frames).filterMap (classifyCardUpdate wc) ∧
      r.deviceSyncs = (drainPrefix frames).filterMap (classifyDeviceSync wc) ∧
      r.received = ((drainPrefix frames).filter (countsReceived wc)).length := by
  induction frames with
  | nil =>
    intro r h
    simp [receivePendingAux] at h
    simp [← h, drainPrefix]
  | cons f rest ih =>
    intro r h
    cases f with
    | closeFrame =>
      simp [receivePendingAux] at h
      simp [← h, drainPrefix, isDrainTerminator]
    | readTimeout =>
      simp [receivePendingAux] at h
      simp [← h, drainPrefix, isDrainTerminator]
    | readError =>
      simp [receivePendingAux] at h
      simp [← h, drainPrefix, isDrainTerminator]
    | textual =>
      simp only [receivePendingAux] at h
      obtain ⟨hx, hc, hd, hr⟩ := ih r h
      simp [drainPrefix, isDrainTerminator, classifyExchange, classifyCardUpdate,
        classifyDeviceSync, countsReceived, hx, hc, hd, hr]
    | ping d =>
      simp only [receivePendingAux] at h
      obtain ⟨a, ha, hra⟩ := except_map_ok _ _ _ h
      obtain ⟨hx, hc, hd, hr⟩ := ih a ha
      subst hra
      simp [drainPrefix, isDrainTerminator, classifyExchange, classifyCardUpdate,
        classifyDeviceSync, countsReceived, hx, hc, hd, hr]
    | binary data =>
      simp only [receivePendingAux] at h
      cases hdec : wc.decode data with
      | none =>
        simp only [hdec] at h
        obtain ⟨a, ha, hra⟩ := except_map_ok _ _ _ h
        obtain ⟨hx, hc, hd, hr⟩ := ih a ha
        subst hra
        simp [drainPrefix, isDrainTerminator, classifyExchange, classifyCardUpdate,
          classifyDeviceSync, countsReceived, hdec, hx, hc, hd, hr]
      | some env =>
        simp only [hdec] at h
        cases hpay : env.payload with
        | handshakePayload cid did =>
          simp only [hpay] at h
          obtain ⟨hx, hc, hd, hr⟩ := ih r h
          simp [drainPrefix, isDrainTerminator, classifyExchange, classifyCardUpdate,
            classifyDeviceSync, countsReceived, hdec, hpay, hx, hc, hd, hr]
        | other =>
          simp only [hpay] at h
          obtain ⟨hx, hc, hd, hr⟩ := ih r h
          simp [drainPrefix, isDrainTerminator, classifyExchange, classifyCardUpdate,
            classifyDeviceSync, countsReceived, hdec, hpay, hx, hc, hd, hr]
        | acknowledgment mid =>
          simp only [hpay] at h
          by_cases hsl : strSliceOutOfRange 8 mid
          · rw [if_pos hsl] at h
            exact absurd h (by simp)
          · rw [if_neg hsl] at h
            obtain ⟨a, ha, hra⟩ := except_map_ok _ _ _ h
            obtain ⟨hx, hc, hd, hr⟩ := ih a ha
            subst hra
            simp [drainPrefix, isDrainTerminator, classifyExchange, classifyCardUpdate,
              classifyDeviceSync, countsReceived, hdec, hpay, hx, hc, hd, hr]
        | deviceSyncAck mid v =>
          simp only [hpay] at h
          by_cases hsl : strSliceOutOfRange 8 mid
          · rw [if_pos hsl] at h
            exact absurd h (by simp)
          · rw [if_neg hsl] at h
            obtain ⟨a, ha, hra⟩ := except_map_ok _ _ _ h
            obtain ⟨hx, hc, hd, hr⟩ := ih a ha
            subst hra
            simp [drainPrefix, isDrainTerminator, classifyExchange, classifyCardUpdate,
              classifyDeviceSync, countsReceived, hdec, hpay, hx, hc, hd, hr]
        | deviceSyncMessage m =>
          simp only [hpay] at h
          by_cases hsl : strSliceOutOfRange 16 m.senderDeviceId
          · rw [if_pos hsl] at h
            exact absurd h (by simp)
          · rw [if_neg hsl] at h
            obtain ⟨a, ha, hra⟩ := except_map_ok _ _ _ h
            obtain ⟨hx, hc, hd, hr⟩ := ih a ha
            subst hra
            simp [drainPrefix, isDrainTerminator, classifyExchange, classifyCardUpdate,
              classifyDeviceSync, countsReceived, hdec, hpay, hx, hc, hd, hr]
        | encryptedUpdate u =>
          simp only [hpay] at h
          by_cases hex : wc.isExch u.ciphertext
          · rw [if_pos hex] at h
            cases hfb : wc.exchangeFromBytes u.ciphertext with
            | some ex =>
              rw [hfb] at h
              obtain ⟨a, ha, hra⟩ := except_map_ok _ _ _ h
              obtain ⟨hx, hc, hd, hr⟩ := ih a ha
              subst hra
              simp [drainPrefix, isDrainTerminator, classifyExchange, classifyCardUpdate,
                classifyDeviceSync, countsReceived, hdec, hpay, hex, hfb, hx, hc, hd, hr]
            | none =>
              rw [hfb] at h
              obtain ⟨a, ha, hra⟩ := except_map_ok _ _ _ h
              obtain ⟨hx, hc, hd, hr⟩ := ih a ha
              subst hra
              simp [drainPrefix, isDrainTerminator, classifyExchange, classifyCardUpdate,
                classifyDeviceSync, countsReceived, hdec, hpay, hex, hfb, hx, hc, hd, hr]
          · rw [if_neg hex] at h
            by_cases hsl : strSliceOutOfRange 8 u.senderId
            · rw [if_pos hsl] at h
              exact absurd h (by simp)
            · rw [if_neg hsl] at h
              obtain ⟨a, ha, hra⟩ := except_map_ok _ _ _ h
              obtain ⟨hx, hc, hd, hr⟩ := ih a ha
              subst hra
              simp [drainPrefix, isDrainTerminator, classifyExchange, classifyCardUpdate,
                classifyDeviceSync, countsReceived, hdec, hpay, hex, hx, hc, hd, hr]

/-- C8: the inbound drain mutates no local persistent state — the state
handle passes through `receive_pending` untouched — and when the drain
completes it yields exactly the three ordered collections (exchange
messages, card updates as sender–ciphertext pairs, device-sync payloads)
and the received count of the drained frame prefix. -/
theorem receivePending_pure_and_ordered (wc : WireCodec) (frames : List InFrame)
    (s : LocalState) :
    (receivePending wc frames s).2 = s ∧
    ∀ r, (receivePending wc frames s).1 = .ok r →
      r.exchanges = (drainPrefix frames).filterMap (classifyExchange wc) ∧
      r.cardUpdates = (drainPrefix frames).filterMap (classifyCardUpdate wc) ∧
      r.deviceSyncs = (drainPrefix frames).filterMap (classifyDeviceSync wc) ∧
      r.received = ((drainPrefix frames).filter (countsReceived wc)).length :=
  ⟨rfl, receivePendingAux_ok_spec wc frames⟩

deriving instance DecidableEq for Except

/-- Empty local state used by concrete witnesses. -/
def sampleState : LocalState := ⟨[], none, [], none, []⟩

/-- Concrete codec for the drain witnesses: `[1]` decodes to a well-formed
non-exchange encrypted update, anything else fails to decode. -/
def sampleCodec : WireCodec where
  decode := fun data =>
    if data = [1] then
      some ⟨"msg00001", .encryptedUpdate ⟨"rcpt", "sender01", [9]⟩⟩
    else none
  isExch := fun _ => false
  exchangeFromBytes := fun _ => none
  encodeAckOk := fun _ => true

/-- Frame stream for the C8 witness: one good envelope, one undecodable
frame, the idle timeout, and one frame past the terminator. -/
def sampleFrames : List InFrame :=
  [.binary [1], .binary [2], .readTimeout, .binary [1]]

/-- The drain result of `sampleFrames` under `sampleCodec`. -/
def sampleDrain : DrainResult :=
  ⟨1, [], [("sender01", [9])], [],
    [.info ("Received encrypted update from " ++ "sender01"),
     .netSend (.ackFrame "msg00001"),
     .warn "Failed to decode message"]⟩

/-- Witness for C8 at a concrete stream: the state passes through
unchanged, the undecodable frame is skipped, and the received count is
that of the drained prefix. -/
theorem receivePending_pure_and_ordered_witness :
    (receivePending sampleCodec sampleFrames sampleState).2 = sampleState ∧
    (receivePending sampleCodec sampleFrames sampleState).1 = .ok sampleDrain ∧
    sampleDrain.received =
      ((drainPrefix sampleFrames).filter (countsReceived sampleCodec)).length ∧
    sampleDrain.cardUpdates =
      (drainPrefix sampleFrames).filterMap (classifyCardUpdate sampleCodec) := by
  have h := receivePending_pure_and_ordered sampleCodec sampleFrames sampleState
  refine ⟨h.1, by decide, ?_, ?_⟩
  · exact (h.2 sampleDrain (by decide)).2.2.2
  · exact (h.2 sampleDrain (by decide)).2.1

/-- Codec whose only decodable frame is a well-formed envelope carrying a
2-byte sender id — garbage key material from the untrusted relay. -/
def panicCodec : WireCodec where
  decode := fun data =>
    if data = [2] then
      some ⟨"msg00002", .encryptedUpdate ⟨"rcpt", "ab", [7]⟩⟩
    else none
  isExch := fun _ => false
  exchangeFromBytes := fun _ => none
  encodeAckOk := fun _ => true

/-- C3 (code bug): a decodable envelope whose sender id is shorter than 8
bytes makes the drain loop panic in the display slicing
`&update.sender_id[..8]` (sync.rs line 160), aborting the whole pass; the
following frame is never drained, and nothing is logged-and-continued as
the claim requires. -/
theorem receivePending_panics_on_short_sender_id :
    (receivePending panicCodec [.binary [2], .binary [9]] sampleState).1 =
      .error "panic: byte index 8 is out of bounds of sender_id" := by
  decide

/-! ### Idempotence of `apply_sync_item` -/

lemma getContact_removeContact (s : LocalState) (cid : String) :
    getContact (removeContact s cid) cid = none := by
  simp only [getContact, removeContact, List.find?_eq_none]
  intro c hc
  have h2 := (List.mem_filter.mp hc).2
  simpa [bne] using h2

lemma upsertField_idem (l v : String) (c : Card) :
    upsertField l v (upsertField l v c) = upsertField l v c := by
  by_cases hany : (c.any (fun p => p.1 == l)) = true
  · have h1 : upsertField l v c = c.map (fun p => if p.1 == l then (l, v) else p) := by
      simp [upsertField, hany]
    obtain ⟨p, hp, hpl⟩ := List.any_eq_true.mp hany
    have hmem : (l, v) ∈ c.map (fun p => if p.1 == l then (l, v) else p) := by
      refine List.mem_map.mpr ⟨p, hp, ?_⟩
      simp [hpl]
    have hany2 : ((c.map (fun p => if p.1 == l then (l, v) else p)).any
        (fun p => p.1 == l)) = true := by
      refine List.any_eq_true.mpr ⟨(l, v), hmem, by simp⟩
    rw [h1]
    simp only [upsertField, hany2, if_true, List.map_map]
    apply List.map_congr_left
    intro q _
    by_cases h : (q.1 == l) = true <;> simp [h, Function.comp]
  · have h1 : upsertField l v c = c ++ [(l, v)] := by
      simp [upsertField, hany]
    have hall : ∀ p ∈ c, ((p.1 == l) = false) := by
      intro p hp
      by_contra hcon
      simp only [Bool.not_eq_false] at hcon
      exact hany (List.any_eq_true.mpr ⟨p, hp, hcon⟩)
    have hany2 : ((c ++ [(l, v)]).any (fun p => p.1 == l)) = true := by
      refine List.any_eq_true.mpr ⟨(l, v), by simp, by simp⟩
    rw [h1]
    simp only [upsertField, hany2, if_true, List.map_append]
    have hmapc : c.map (fun p => if p.1 == l then (l, v) else p) = c := by
      have := List.map_congr_left (l := c)
        (f := fun p => if p.1 == l then (l, v) else p) (g := id)
        (fun p hp => by simp [hall p hp])
      simpa using this
    rw [hmapc]
    simp

/-- C6: `apply_sync_item` is idempotent on local state for every item
kind (for honest sync data, whose contact id matches the key-derived id),
and a `ContactAdded` item whose contact id already exists locally leaves
the state unchanged — no duplicate contact is ever created. -/
theorem applySyncItem_idempotent (sto : StorageOracle) (s : LocalState) (it : SyncItem)
    (hwf : it.wf) :
    applySyncItemState sto (applySyncItemState sto s it) it = applySyncItemState sto s it ∧
    (∀ cd ts, getContact s cd.id ≠ none →
      applySyncItemState sto s (.contactAdded cd ts) = s) := by
  constructor
  · cases it with
    | contactAdded cd ts =>
      simp only [SyncItem.wf] at hwf
      cases hg : getContact s cd.id with
      | some c => simp [applySyncItemState, applySyncItem, hg]
      | none =>
        by_cases hadd : sto.addContactOk (Contact.fromExchange cd.publicKey
            ((sto.parseCardName cd.cardJson).getD cd.displayName)).id = true
        · have hg2 : getContact (addContact s (Contact.fromExchange cd.publicKey
              ((sto.parseCardName cd.cardJson).getD cd.displayName))) cd.id =
                some (Contact.fromExchange cd.publicKey
                  ((sto.parseCardName cd.cardJson).getD cd.displayName)) := by
            simp [getContact, addContact, List.find?_cons, Contact.fromExchange, hwf]
          simp [applySyncItemState, applySyncItem, hg, hadd, hg2]
        · simp [applySyncItemState, applySyncItem, hg, hadd]
    | contactRemoved cid =>
      cases hg : getContact s cid with
      | none => simp [applySyncItemState, applySyncItem, hg]
      | some c =>
        by_cases hrm : sto.removeContactOk cid = true
        · by_cases hsl : strSliceOutOfRange 8 cid = true
          · simp [applySyncItemState, applySyncItem, hg, hrm, hsl,
              getContact_removeContact]
          · simp [applySyncItemState, applySyncItem, hg, hrm, hsl,
              getContact_removeContact]
        · simp [applySyncItemState, applySyncItem, hg, hrm]
    | cardUpdated l v =>
      cases hc : s.ownCard with
      | none => simp [applySyncItemState, applySyncItem, hc]
      | some card =>
        by_cases hu : sto.updateFieldOk l v = true
        · by_cases hsv : sto.saveOwnCardOk = true
          · simp [applySyncItemState, applySyncItem, hc, hu, hsv, upsertField_idem]
          · simp [applySyncItemState, applySyncItem, hc, hu, hsv]
        · simp [applySyncItemState, applySyncItem, hc, hu]
    | visibilityChanged cid l vis =>
      by_cases hsl : strSliceOutOfRange 8 cid = true <;>
        simp [applySyncItemState, applySyncItem, hsl]
    | labelChange => simp [applySyncItemState, applySyncItem]
    | contactTrustChanged cid tr => simp [applySyncItemState, applySyncItem]
    | deletionScheduled at_ => simp [applySyncItemState, applySyncItem]
    | deletionCancelled => simp [applySyncItemState, applySyncItem]
  · intro cd ts hex
    cases hg : getContact s cd.id with
    | none => exact absurd hg hex
    | some c => simp [applySyncItemState, applySyncItem, hg]

/-- Honest sync data for the C6 witness: the id is the hex of the key. -/
def sampleSyncData : ContactSyncData :=
  ⟨hexEncode (List.replicate 32 0), "Dana", "cardjson", List.replicate 32 0⟩

/-- Storage oracle whose writes all succeed and whose card parse yields
nothing (falling back to the display name). -/
def sampleStorage : StorageOracle :=
  ⟨fun _ => true, fun _ => true, fun _ => true, true, fun _ _ => true, fun _ => none⟩

/-- Witness for C6: a concrete `ContactAdded` item applied twice from the
empty state ends in the same state as applying it once, and applying it
to a state already holding that contact id changes nothing. -/
theorem applySyncItem_idempotent_witness :
    SyncItem.wf (.contactAdded sampleSyncData 7) ∧
    applySyncItemState sampleStorage
        (applySyncItemState sampleStorage sampleState (.contactAdded sampleSyncData 7))
        (.contactAdded sampleSyncData 7) =
      applySyncItemState sampleStorage sampleState (.contactAdded sampleSyncData 7) ∧
    applySyncItemState sampleStorage
        ⟨[⟨sampleSyncData.id, "Dana"⟩], none, [], none, []⟩
        (.contactAdded sampleSyncData 7) =
      ⟨[⟨sampleSyncData.id, "Dana"⟩], none, [], none, []⟩ := by
  refine ⟨by decide, ?_, ?_⟩
  · exact (applySyncItem_idempotent sampleStorage sampleState
      (.contactAdded sampleSyncData 7) (by decide)).1
  · exact (applySyncItem_idempotent sampleStorage
      ⟨[⟨sampleSyncData.id, "Dana"⟩], none, [], none, []⟩
      (.contactAdded sampleSyncData 7) (by decide)).2 sampleSyncData 7 (by decide)

/-! ### Idempotence of the exchange applier -/

lemma countP_eq_zero_of_getContact_none (s : LocalState) (pid : String)
    (h : getContact s pid = none) :
    s.contacts.countP (fun c => c.id == pid) = 0 := by
  rw [List.countP_eq_zero]
  intro c hc
  have := List.find?_eq_none.mp h c hc
  simpa using this

/-- C5: applying the same `ExchangeRequest` envelope twice yields exactly
one contact: once the sender is stored under its derived public id, the
second application of the identical message is skipped as a duplicate and
changes nothing. -/
theorem processExchangeMessages_idempotent
    (exo : ExchangeOracle) (sto : StorageOracle) (m : ExchangeMessage) (s : LocalState)
    (ik : List Nat)
    (hreq : m.isResponse = false)
    (hik : hexDecode32 m.identityPublicKey = some ik)
    (hek : ∃ ek, hexDecode32 m.ephemeralPublicKey = some ek ∧
      (exo.x3dhRespond ik ek).isSome)
    (hnew : getContact s (hexEncode ik) = none)
    (hadd : sto.addContactOk (hexEncode ik) = true) :
    (processExchangeMessages exo sto [m, m] s).2.1 =
      (processExchangeMessages exo sto [m] s).2.1 ∧
    (processExchangeMessages exo sto [m, m] s).1 = .ok (1, 0) ∧
    ((processExchangeMessages exo sto [m, m] s).2.1.contacts.countP
      (fun c => c.id == hexEncode ik)) = 1 := by
  obtain ⟨ek, hek1, hx⟩ := hek
  cases hsec : exo.x3dhRespond ik ek with
  | none => rw [hsec] at hx; simp at hx
  | some sec =>
    have hadd2 : sto.addContactOk (Contact.fromExchange ik m.displayName).id = true := by
      simpa [Contact.fromExchange] using hadd
    have hg1 : getContact (addContact s (Contact.fromExchange ik m.displayName))
        (hexEncode ik) = some (Contact.fromExchange ik m.displayName) := by
      simp [getContact, addContact, Contact.fromExchange]
    have hstate2 : (processExchangeMessages exo sto [m, m] s).2.1 =
        addContact s (Contact.fromExchange ik m.displayName) := by
      simp [processExchangeMessages, processExchangeLoop, hik, hreq, hek1, hnew,
        hsec, hadd2, hg1, Except.map]
    have hstate1 : (processExchangeMessages exo sto [m] s).2.1 =
        addContact s (Contact.fromExchange ik m.displayName) := by
      simp [processExchangeMessages, processExchangeLoop, hik, hreq, hek1, hnew,
        hsec, hadd2, hg1, Except.map]
    refine ⟨hstate2.trans hstate1.symm, ?_, ?_⟩
    · simp [processExchangeMessages, processExchangeLoop, hik, hreq, hek1, hnew,
        hsec, hadd2, hg1, Except.map]
    · have hz := countP_eq_zero_of_getContact_none s (hexEncode ik) hnew
      rw [hstate2]
      simp [addContact, Contact.fromExchange, List.countP_cons, hz]

/-- Concrete request message for the C5 witness. -/
def sampleExchangeMsg : ExchangeMessage :=
  ⟨hexEncode (List.replicate 32 1), hexEncode (List.replicate 32 2), "Erin", false⟩

/-- Exchange oracle for the C5 and C2 witnesses: key agreement and all
collaborator calls succeed. -/
def sampleExchangeOracle : ExchangeOracle :=
  ⟨fun _ _ => some [3], fun _ => true, true, true, true, true⟩

/-- Witness for C5: the concrete request applied twice from the empty
state stores exactly one contact and the second application is a no-op. -/
theorem processExchangeMessages_idempotent_witness :
    (processExchangeMessages sampleExchangeOracle sampleStorage
        [sampleExchangeMsg, sampleExchangeMsg] sampleState).2.1 =
      (processExchangeMessages sampleExchangeOracle sampleStorage
        [sampleExchangeMsg] sampleState).2.1 ∧
    (processExchangeMessages sampleExchangeOracle sampleStorage
        [sampleExchangeMsg, sampleExchangeMsg] sampleState).1 = .ok (1, 0) ∧
    ((processExchangeMessages sampleExchangeOracle sampleStorage
        [sampleExchangeMsg, sampleExchangeMsg] sampleState).2.1.contacts.countP
      (fun c => c.id == hexEncode (List.replicate 32 1))) = 1 :=
  processExchangeMessages_idempotent sampleExchangeOracle sampleStorage
    sampleExchangeMsg sampleState (List.replicate 32 1) (by decide) (by decide)
    ⟨List.replicate 32 2, by decide, by decide⟩ (by decide) (by decide)

/-! ### Network sends during classification -/

lemma netSends_nil : netSends [] = [] := rfl

lemma netSends_cons_warn (m : String) (evs : List Event) :
    netSends (.warn m :: evs) = netSends evs := rfl

lemma netSends_cons_info (m : String) (evs : List Event) :
    netSends (.info m :: evs) = netSends evs := rfl

lemma netSends_cons_ok (m : String) (evs : List Event) :
    netSends (.ok m :: evs) = netSends evs := rfl

lemma netSends_append (a b : List Event) :
    netSends (a ++ b) = netSends a ++ netSends b :=
  List.filterMap_append a b _

/-- C2 (counterexample): the classification phase does send. Applying one
valid, non-duplicate exchange request makes the exchange applier open a
fresh connection and emit a handshake and a response frame inline
(`send_exchange_response` called from `process_exchange_messages`),
before the dispatch phase runs. -/
theorem processExchangeMessages_sends_during_classification :
    netSends (processExchangeMessages sampleExchangeOracle sampleStorage
        [sampleExchangeMsg] sampleState).2.2 =
      [.handshakeFrame, .encUpdateFrame (hexEncode (List.replicate 32 1))] := by
  decide

lemma netSends_processCardUpdatesLoop (co : CardOracle) (s : LocalState)
    (updates : List (String × List Nat)) :
    netSends (processCardUpdatesLoop co s updates).2 = [] := by
  induction updates with
  | nil => rfl
  | cons uv rest ih =>
    obtain ⟨senderId, ct⟩ := uv
    cases hg : getContact s senderId with
    | none =>
      by_cases hsl : strSliceOutOfRange 8 senderId = true
      · simp [processCardUpdatesLoop, hg, hsl, netSends_nil]
      · simp [processCardUpdatesLoop, hg, hsl, netSends_cons_warn, ih]
    | some c =>
      cases hp : co.processCardUpdate senderId ct with
      | none => simp [processCardUpdatesLoop, hg, hp, netSends_cons_warn, ih]
      | some changed =>
        by_cases hch : changed.isEmpty = true <;>
          simp [processCardUpdatesLoop, hg, hp, hch, netSends_cons_info,
            netSends_cons_ok, ih]

lemma netSends_applySyncItem (sto : StorageOracle) (s : LocalState) (it : SyncItem) :
    netSends (applySyncItem sto s it).2.2 = [] := by
  cases it with
  | contactAdded cd ts =>
    cases hg : getContact s cd.id with
    | some c => simp [applySyncItem, hg, netSends_nil]
    | none =>
      by_cases hadd : sto.addContactOk (Contact.fromExchange cd.publicKey
          ((sto.parseCardName cd.cardJson).getD cd.displayName)).id = true <;>
        simp [applySyncItem, hg, hadd, netSends_nil, netSends_cons_ok]
  | contactRemoved cid =>
    cases hg : getContact s cid with
    | none => simp [applySyncItem, hg, netSends_nil]
    | some c =>
      by_cases hrm : sto.removeContactOk cid = true
      · by_cases hsl : strSliceOutOfRange 8 cid = true <;>
          simp [applySyncItem, hg, hrm, hsl, netSends_nil, netSends_cons_info]
      · simp [applySyncItem, hg, hrm, netSends_nil]
  | cardUpdated l v =>
    cases hc : s.ownCard with
    | none => simp [applySyncItem, hc, netSends_nil]
    | some card =>
      by_cases hu : sto.updateFieldOk l v = true
      · by_cases hsv : sto.saveOwnCardOk = true <;>
          simp [applySyncItem, hc, hu, hsv, netSends_nil, netSends_cons_info]
      · simp [applySyncItem, hc, hu, netSends_nil]
  | visibilityChanged cid l vis =>
    by_cases hsl : strSliceOutOfRange 8 cid = true <;>
      simp [applySyncItem, hsl, netSends_nil, netSends_cons_info]
  | labelChange => simp [applySyncItem, netSends_cons_info, netSends_nil]
  | contactTrustChanged cid tr => simp [applySyncItem, netSends_cons_info, netSends_nil]
  | deletionScheduled at_ => simp [applySyncItem, netSends_cons_info, netSends_nil]
  | deletionCancelled => simp [applySyncItem, netSends_cons_info, netSends_nil]

lemma netSends_applyItems (sto : StorageOracle) (s : LocalState) (items : List SyncItem) :
    netSends (applyItems sto s items).2.2 = [] := by
  induction items generalizing s with
  | nil => rfl
  | cons it rest ih =>
    have hev := netSends_applySyncItem sto s it
    rcases happ : applySyncItem sto s it with ⟨outcome, s2, evs⟩
    rw [happ] at hev
    cases outcome with
    | panicked msg => simp [applyItems, happ, hev]
    | applied => simp [applyItems, happ, netSends_append, hev, ih]
    | failed e =>
      simp [applyItems, happ, netSends_append, hev, ih, netSends_cons_warn, netSends_nil]

lemma netSends_processOneDeviceSync (dso : DsOracle) (sto : StorageOracle)
    (regs : List DeviceRec) (s : LocalState) (msg : DeviceSyncMessage) :
    netSends (processOneDeviceSync dso sto regs s msg).2.2 = [] := by
  cases hdd : hexDecode32 msg.senderDeviceId with
  | none => simp [processOneDeviceSync, hdd, netSends_cons_warn, netSends_nil]
  | some did =>
    cases hfd : findDevice regs did with
    | none =>
      by_cases hsl : strSliceOutOfRange 16 msg.senderDeviceId = true <;>
        simp [processOneDeviceSync, hdd, hfd, hsl, netSends_cons_warn, netSends_nil]
    | some sender =>
      cases hde : dso.decryptFromDevice sender.exchangePublicKey msg.encryptedPayload with
      | none => simp [processOneDeviceSync, hdd, hfd, hde, netSends_cons_warn, netSends_nil]
      | some payload =>
        cases hpi : dso.parseItems payload with
        | none =>
          simp [processOneDeviceSync, hdd, hfd, hde, hpi, netSends_cons_warn, netSends_nil]
        | some items =>
          cases hin : dso.processIncoming items with
          | none =>
            by_cases hms : dso.markSyncedOk did msg.version = true <;>
              simp [processOneDeviceSync, hdd, hfd, hde, hpi, hin, hms,
                netSends_cons_warn, netSends_nil, netSends_append]
          | some applied =>
            have hai := netSends_applyItems sto s applied
            rcases happ : applyItems sto s applied with ⟨res, s2, evs⟩
            rw [happ] at hai
            cases res with
            | error e =>
              simp [processOneDeviceSync, hdd, hfd, hde, hpi, hin, happ, Except.map, hai]
            | ok u =>
              by_cases hms : dso.markSyncedOk did msg.version = true <;>
                simp [processOneDeviceSync, hdd, hfd, hde, hpi, hin, happ, Except.map,
                  hai, hms, netSends_append, netSends_cons_warn, netSends_nil]

lemma netSends_processDeviceSyncLoop (dso : DsOracle) (sto : StorageOracle)
    (regs : List DeviceRec) (s : LocalState) (msgs : List DeviceSyncMessage) :
    netSends (processDeviceSyncLoop dso sto regs s msgs).2.2 = [] := by
  induction msgs generalizing s with
  | nil => rfl
  | cons m rest ih =>
    have hone := netSends_processOneDeviceSync dso sto regs s m
    rcases hp : processOneDeviceSync dso sto regs s m with ⟨res, s2, evs⟩
    rw [hp] at hone
    cases res with
    | error e => simp [processDeviceSyncLoop, hp, hone]
    | ok n => simp [processDeviceSyncLoop, hp, netSends_append, hone, ih]

/-- C2 (amended): the card-update applier and the device-sync applier
perform no network I/O for any input; the exchange applier, in contrast,
sends its responses inline, but does not send while processing lists of
response-flagged messages — only the new-contact branch sends. -/
theorem classification_appliers_do_not_send :
    (∀ (co : CardOracle) (updates : List (String × List Nat)) (s : LocalState),
      netSends (processCardUpdates co updates s).2 = []) ∧
    (∀ (dso : DsOracle) (sto : StorageOracle) (msgs : List DeviceSyncMessage)
      (s : LocalState), netSends (processDeviceSyncMessages dso sto msgs s).2.2 = []) ∧
    (∀ (exo : ExchangeOracle) (sto : StorageOracle) (msgs : List ExchangeMessage)
      (s : LocalState), (∀ m ∈ msgs, m.isResponse = true) →
      netSends (processExchangeMessages exo sto msgs s).2.2 = []) := by
  refine ⟨?_, ?_, ?_⟩
  · intro co updates s
    exact netSends_processCardUpdatesLoop co s updates
  · intro dso sto msgs s
    by_cases hm : msgs.isEmpty = true
    · simp [processDeviceSyncMessages, hm, netSends_nil]
    · cases hr : s.deviceRegistry with
      | none => simp [processDeviceSyncMessages, hm, hr, netSends_cons_warn, netSends_nil]
      | some regs =>
        simp [processDeviceSyncMessages, hm, hr, netSends_processDeviceSyncLoop]
  · intro exo sto msgs s hresp
    induction msgs generalizing s with
    | nil => rfl
    | cons m rest ih =>
      have hm : m.isResponse = true := hresp m (by simp)
      have hrest : ∀ m2 ∈ rest, m2.isResponse = true := fun m2 h2 => hresp m2 (by simp [h2])
      cases hik : hexDecode32 m.identityPublicKey with
      | none =>
        simp only [processExchangeMessages, processExchangeLoop, hik]
        simp [netSends_append, netSends_cons_warn, netSends_nil,
          show ∀ s2, netSends (processExchangeLoop exo sto rest s2).2.2 = [] from
            fun s2 => ih s2 hrest]
      | some ik =>
        cases hg : getContact s (hexEncode ik) with
        | none =>
          simp only [processExchangeMessages, processExchangeLoop, hik, hm, hg]
          simp [netSends_append, netSends_cons_warn, netSends_nil,
            show ∀ s2, netSends (processExchangeLoop exo sto rest s2).2.2 = [] from
              fun s2 => ih s2 hrest]
        | some c =>
          by_cases hne : (c.displayName != m.displayName) = true
          · by_cases hsd : exo.setDisplayNameOk m.displayName = true
            · by_cases hup : sto.updateContactOk (hexEncode ik) = true
              · simp only [processExchangeMessages, processExchangeLoop, hik, hm, hg,
                  hne, hsd, hup]
                simp [netSends_append, netSends_cons_ok, netSends_nil,
                  show ∀ s2, netSends (processExchangeLoop exo sto rest s2).2.2 = [] from
                    fun s2 => ih s2 hrest]
              · simp only [processExchangeMessages, processExchangeLoop, hik, hm, hg,
                  hne, hsd, hup]
                simp [netSends_nil]
            · simp only [processExchangeMessages, processExchangeLoop, hik, hm, hg,
                hne, hsd]
              simp [netSends_append, netSends_cons_warn, netSends_nil,
                show ∀ s2, netSends (processExchangeLoop exo sto rest s2).2.2 = [] from
                  fun s2 => ih s2 hrest]
          · simp only [processExchangeMessages, processExchangeLoop, hik, hm, hg, hne]
            simp [netSends_append, netSends_cons_info, netSends_nil,
              show ∀ s2, netSends (processExchangeLoop exo sto rest s2).2.2 = [] from
                fun s2 => ih s2 hrest]

/-- Witness for the amended C2 theorem: at concrete inputs the device
applier and a response-only exchange list produce no network sends. -/
theorem classification_appliers_do_not_send_witness :
    netSends (processCardUpdates ⟨fun _ _ => some []⟩ [("sender01", [9])] sampleState).2 = [] ∧
    netSends (processExchangeMessages sampleExchangeOracle sampleStorage
        [⟨hexEncode (List.replicate 32 1), hexEncode (List.replicate 32 2), "Erin", true⟩]
        sampleState).2.2 = [] := by
  refine ⟨classification_appliers_do_not_send.1 ⟨fun _ _ => some []⟩ [("sender01", [9])]
    sampleState, ?_⟩
  exact classification_appliers_do_not_send.2.2 sampleExchangeOracle sampleStorage
    [⟨hexEncode (List.replicate 32 1), hexEncode (List.replicate 32 2), "Erin", true⟩]
    sampleState (by decide)

/-! ### Device-sync inbound: skipping, marking synced, counting -/

lemma syncedVersionOf_markSynced (s : LocalState) (did : List Nat) (v : Nat) :
    syncedVersionOf (markSynced s did v) did = some v := by
  simp [syncedVersionOf, markSynced]

/-- Whether the `for item in applied` loop hits a per-item failure (a
Rust `Err` caught as a warning, or a panic). -/
def anyApplyFails (sto : StorageOracle) (s : LocalState) : List SyncItem → Bool
  | [] => false
  | it :: rest =>
    match applySyncItem sto s it with
    | (.applied, s2, _) => anyApplyFails sto s2 rest
    | (.failed _, _, _) => true
    | (.panicked _, _, _) => true

lemma processOneDeviceSync_known (dso : DsOracle) (sto : StorageOracle)
    (regs : List DeviceRec) (s : LocalState) (msg : DeviceSyncMessage)
    (did : List Nat) (sender : DeviceRec) (payload : List Nat) (items : List SyncItem)
    (hd : hexDecode32 msg.senderDeviceId = some did)
    (hf : findDevice regs did = some sender)
    (hde : dso.decryptFromDevice sender.exchangePublicKey msg.encryptedPayload = some payload)
    (hpi : dso.parseItems payload = some items)
    (hms : dso.markSyncedOk did msg.version = true)
    (hnp : ∀ applied, dso.processIncoming items = some applied →
      (applyItems sto s applied).1 = Except.ok ()) :
    (processOneDeviceSync dso sto regs s msg).1 =
      .ok (if (dso.processIncoming items).isSome then 1 else 0) ∧
    syncedVersionOf (processOneDeviceSync dso sto regs s msg).2.1 did = some msg.version := by
  cases hin : dso.processIncoming items with
  | none =>
    constructor
    · simp [processOneDeviceSync, hd, hf, hde, hpi, hin, hms]
    · simp [processOneDeviceSync, hd, hf, hde, hpi, hin, hms, syncedVersionOf_markSynced]
  | some applied =>
    have happ := hnp applied hin
    rcases hav : applyItems sto s applied with ⟨res, s2, evs⟩
    rw [hav] at happ
    subst happ
    constructor
    · simp [processOneDeviceSync, hd, hf, hde, hpi, hin, hav, hms, Except.map]
    · simp [processOneDeviceSync, hd, hf, hde, hpi, hin, hav, hms, Except.map,
        syncedVersionOf_markSynced]

/-- C7: of two arriving device-sync payloads, the one from a device
missing from the registry is skipped with a warning and mutates nothing
(the pass state equals the state of processing the known payload alone),
while the known-device payload is applied, its sender is marked synced to
the declared version, and the reported received count is 1. -/
theorem processDeviceSync_unknown_skipped_known_counted
    (dso : DsOracle) (sto : StorageOracle) (regs : List DeviceRec) (s : LocalState)
    (mU mK : DeviceSyncMessage) (didU didK : List Nat) (sender : DeviceRec)
    (payload : List Nat) (items applied : List SyncItem)
    (hreg : s.deviceRegistry = some regs)
    (hdU : hexDecode32 mU.senderDeviceId = some didU)
    (hlenU : strSliceOutOfRange 16 mU.senderDeviceId = false)
    (hfU : findDevice regs didU = none)
    (hdK : hexDecode32 mK.senderDeviceId = some didK)
    (hfK : findDevice regs didK = some sender)
    (hde : dso.decryptFromDevice sender.exchangePublicKey mK.encryptedPayload = some payload)
    (hpi : dso.parseItems payload = some items)
    (hin : dso.processIncoming items = some applied)
    (happ : (applyItems sto s applied).1 = Except.ok ())
    (hms : dso.markSyncedOk didK mK.version = true) :
    (processDeviceSyncMessages dso sto [mU, mK] s).2.1 =
      (processDeviceSyncMessages dso sto [mK] s).2.1 ∧
    (processDeviceSyncMessages dso sto [mU, mK] s).2.2 =
      .warn ("Sync from unknown device: " ++ mU.senderDeviceId.take 16 ++ "...") ::
        (processDeviceSyncMessages dso sto [mK] s).2.2 ∧
    (processDeviceSyncMessages dso sto [mU, mK] s).1 = .ok 1 ∧
    syncedVersionOf (processDeviceSyncMessages dso sto [mU, mK] s).2.1 didK =
      some mK.version := by
  have hone := processOneDeviceSync_known dso sto regs s mK didK sender payload items
    hdK hfK hde hpi hms (fun a ha => by rw [hin] at ha; injection ha with h2; rw [← h2]; exact happ)
  rw [hin] at hone
  rcases hK : processOneDeviceSync dso sto regs s mK with ⟨resK, sK, evsK⟩
  rw [hK] at hone
  obtain ⟨hres, hver⟩ := hone
  simp only at hres
  have hU : processOneDeviceSync dso sto regs s mU =
      (.ok 0, s, [.warn ("Sync from unknown device: " ++ mU.senderDeviceId.take 16 ++ "...")]) := by
    simp [processOneDeviceSync, hdU, hfU, hlenU]
  refine ⟨?_, ?_, ?_, ?_⟩
  · simp [processDeviceSyncMessages, hreg, processDeviceSyncLoop, hU, hK]
  · simp [processDeviceSyncMessages, hreg, processDeviceSyncLoop, hU, hK, hres, Except.map]
  · simp [processDeviceSyncMessages, hreg, processDeviceSyncLoop, hU, hK, hres, Except.map]
  · simpa [processDeviceSyncMessages, hreg, processDeviceSyncLoop, hU, hK, hres,
      Except.map] using hver

/-- Registry with one known device, used by the device-sync witnesses. -/
def sampleDevice : DeviceRec := ⟨List.replicate 32 3, "laptop", [5], true⟩

/-- Local state holding the one-device registry. -/
def sampleRegState : LocalState := ⟨[], none, [], some [sampleDevice], []⟩

/-- Device-sync oracle for the witnesses: decrypt and parse succeed, the
merge returns the single parsed list unchanged, marking synced succeeds. -/
def sampleDsOracle : DsOracle :=
  ⟨fun _ _ => some [1], fun _ => some [], fun its => some its, fun _ _ => true⟩

/-- A payload from the registered device. -/
def sampleKnownMsg : DeviceSyncMessage :=
  ⟨hexEncode (List.replicate 32 3), "t", [8], 4⟩

/-- A payload from a device absent from the registry. -/
def sampleUnknownMsg : DeviceSyncMessage :=
  ⟨hexEncode (List.replicate 32 9), "t", [8], 6⟩

/-- Witness for C7 at concrete inputs: the unknown payload contributes
only a warning, the known one is counted and marked synced. -/
theorem processDeviceSync_unknown_skipped_known_counted_witness :
    (processDeviceSyncMessages sampleDsOracle sampleStorage
        [sampleUnknownMsg, sampleKnownMsg] sampleRegState).2.1 =
      (processDeviceSyncMessages sampleDsOracle sampleStorage
        [sampleKnownMsg] sampleRegState).2.1 ∧
    (processDeviceSyncMessages sampleDsOracle sampleStorage
        [sampleUnknownMsg, sampleKnownMsg] sampleRegState).1 = .ok 1 ∧
    syncedVersionOf (processDeviceSyncMessages sampleDsOracle sampleStorage
        [sampleUnknownMsg, sampleKnownMsg] sampleRegState).2.1 (List.replicate 32 3) =
      some 4 := by
  have h := processDeviceSync_unknown_skipped_known_counted sampleDsOracle sampleStorage
    [sampleDevice] sampleRegState sampleUnknownMsg sampleKnownMsg
    (List.replicate 32 9) (List.replicate 32 3) sampleDevice [1] [] []
    (by decide) (by decide) (by decide) (by decide) (by decide) (by decide)
    (by decide) (by decide) (by decide) (by decide) (by decide)
  exact ⟨h.1, h.2.2.1, h.2.2.2⟩

/-- The literal reading of C10: for a payload that resolves, decrypts and
parses, the sender is marked synced to the declared version, and whenever
the merge fails or applying some item fails, the received counter is
withheld for that payload. -/
def deviceSyncCountWithheldOnFailure : Prop :=
  ∀ (dso : DsOracle) (sto : StorageOracle) (regs : List DeviceRec) (s : LocalState)
    (msg : DeviceSyncMessage) (did : List Nat) (sender : DeviceRec)
    (payload : List Nat) (items : List SyncItem),
    s.deviceRegistry = some regs →
    hexDecode32 msg.senderDeviceId = some did →
    findDevice regs did = some sender →
    dso.decryptFromDevice sender.exchangePublicKey msg.encryptedPayload = some payload →
    dso.parseItems payload = some items →
    dso.markSyncedOk did msg.version = true →
    syncedVersionOf (processDeviceSyncMessages dso sto [msg] s).2.1 did = some msg.version ∧
    ((dso.processIncoming items = none ∨
      (∃ applied, dso.processIncoming items = some applied ∧
        anyApplyFails sto s applied = true)) →
      (processDeviceSyncMessages dso sto [msg] s).1 = .ok 0)

/-- Oracle whose merge yields one `ContactAdded` item. -/
def failDsOracle : DsOracle :=
  ⟨fun _ _ => some [1], fun _ => some [.contactAdded sampleSyncData 7],
    fun its => some its, fun _ _ => true⟩

/-- Storage oracle whose `add_contact` fails, making the item apply fail. -/
def failStorage : StorageOracle :=
  ⟨fun _ => false, fun _ => true, fun _ => true, true, fun _ _ => true, fun _ => none⟩

/-- C10 (counterexample): with a payload whose merge succeeds but whose
single `ContactAdded` item fails to apply (`add_contact` error), the code
still counts the payload as received (counter 1, not 0), so the claim
that the counter is withheld whenever applying fails is false. -/
theorem deviceSyncCountWithheldOnFailure_false :
    ¬ deviceSyncCountWithheldOnFailure := by
  intro h
  have h2 := (h failDsOracle failStorage [sampleDevice] sampleRegState sampleKnownMsg
    (List.replicate 32 3) sampleDevice [1] [.contactAdded sampleSyncData 7]
    (by decide) (by decide) (by decide) (by decide) (by decide) (by decide)).2
    (Or.inr ⟨[.contactAdded sampleSyncData 7], by decide, by decide⟩)
  have h3 : (processDeviceSyncMessages failDsOracle failStorage [sampleKnownMsg]
      sampleRegState).1 = .ok 1 := by decide
  rw [h3] at h2
  exact absurd h2 (by decide)

/-- C10 (amended): for a payload whose sender resolves and whose payload
decrypts and parses, the sender is marked synced to the declared version
even when the merge or the per-item applies fail; the received counter is
withheld exactly when the merge (`process_incoming`) fails — per-item
apply failures still count the payload. -/
theorem processDeviceSync_marks_synced_counts_unless_merge_fails
    (dso : DsOracle) (sto : StorageOracle) (regs : List DeviceRec) (s : LocalState)
    (msg : DeviceSyncMessage) (did : List Nat) (sender : DeviceRec)
    (payload : List Nat) (items : List SyncItem)
    (hreg : s.deviceRegistry = some regs)
    (hd : hexDecode32 msg.senderDeviceId = some did)
    (hf : findDevice regs did = some sender)
    (hde : dso.decryptFromDevice sender.exchangePublicKey msg.encryptedPayload = some payload)
    (hpi : dso.parseItems payload = some items)
    (hms : dso.markSyncedOk did msg.version = true)
    (hnp : ∀ applied, dso.processIncoming items = some applied →
      (applyItems sto s applied).1 = Except.ok ()) :
    syncedVersionOf (processDeviceSyncMessages dso sto [msg] s).2.1 did = some msg.version ∧
    (processDeviceSyncMessages dso sto [msg] s).1 =
      .ok (if (dso.processIncoming items).isSome then 1 else 0) := by
  have hone := processOneDeviceSync_known dso sto regs s msg did sender payload items
    hd hf hde hpi hms hnp
  rcases hK : processOneDeviceSync dso sto regs s msg with ⟨res, s2, evs⟩
  rw [hK] at hone
  obtain ⟨hres, hver⟩ := hone
  simp only at hres hver
  constructor
  · simpa [processDeviceSyncMessages, hreg, processDeviceSyncLoop, hK, hres,
      Except.map] using hver
  · simp [processDeviceSyncMessages, hreg, processDeviceSyncLoop, hK, hres, Except.map]

/-- Witness for the amended C10: the apply-failure instance is still
counted (1) and marked synced. -/
theorem processDeviceSync_marks_synced_counts_unless_merge_fails_witness :
    syncedVersionOf (processDeviceSyncMessages failDsOracle failStorage
        [sampleKnownMsg] sampleRegState).2.1 (List.replicate 32 3) = some 4 ∧
    (processDeviceSyncMessages failDsOracle failStorage
        [sampleKnownMsg] sampleRegState).1 = .ok 1 := by
  have h := processDeviceSync_marks_synced_counts_unless_merge_fails failDsOracle
    failStorage [sampleDevice] sampleRegState sampleKnownMsg (List.replicate 32 3)
    sampleDevice [1] [.contactAdded sampleSyncData 7]
    (by decide) (by decide) (by decide) (by decide) (by decide) (by decide)
    (fun a ha => by
      have h2 : a = [SyncItem.contactAdded sampleSyncData 7] := by
        have := ha
        simp [failDsOracle] at this
        exact this.symm
      rw [h2]
      decide)
  refine ⟨h.1, ?_⟩
  have h3 : ((failDsOracle.processIncoming
      [SyncItem.contactAdded sampleSyncData 7]).isSome) = true := by decide
  rw [h.2]
  simp [h3]

/-! ### Connection failure and the zero-work pass -/

/-- C4 (counterexample): the pass configures no connection timeout at all
— only the 1000 ms read timeout is set — so no fixed upper bound on
connecting exists to enforce. -/
theorem no_connect_timeout_configured :
    connectTimeoutMillis = none ∧ readTimeoutMillis = some 1000 ∧
    ¬ ∃ bound, connectTimeoutMillis = some bound := by
  refine ⟨rfl, rfl, ?_⟩
  rintro ⟨b, hb⟩
  simp [connectTimeoutMillis] at hb

/-- C4 (amended): when connecting to the relay fails, the whole pass
aborts with the reported error, no local persistent state has been
mutated, nothing was sent, and the process exits non-zero. -/
theorem runSync_connect_failure_aborts_cleanly (env : RunEnv) (s : LocalState)
    (hc : env.connectOk = false) :
    (∃ e, (runSync env s).1 = .error e) ∧
    (runSync env s).2.1 = s ∧
    (runSync env s).2.2 = [] ∧
    mainExitCode (runSync env s).1 = 1 := by
  by_cases h1 : env.initialized <;> by_cases h2 : env.identityLoadOk <;>
    by_cases h3 : env.hasIdentity <;>
      simp [runSync, mainExitCode, h1, h2, h3, hc]

lemma sendPendingUpdates_empty (encodeOk sendOk : PendingUpdate → Bool)
    (contacts : List Contact) :
    sendPendingUpdates encodeOk sendOk contacts [] = (0, [], []) := by
  induction contacts with
  | nil => rfl
  | cons c cs ih => simp [sendPendingUpdates, processPendingList, ih]

/-- C9: a pass with zero inbound frames and zero pending outbound updates
(and no device registry) succeeds, leaves the state untouched, reports
the explicit no-work summary line, and exits 0. -/
theorem runSync_zero_work_reports_no_messages (env : RunEnv) (s : LocalState)
    (h1 : env.initialized = true) (h2 : env.identityLoadOk = true)
    (h3 : env.hasIdentity = true) (h4 : env.connectOk = true)
    (h5 : env.setReadTimeoutOk = true) (h6 : env.handshakeSendOk = true)
    (hframes : env.frames = [])
    (hpend : s.pendingUpdates = [])
    (hreg : s.deviceRegistry = none) :
    (runSync env s).1 = .ok "Sync complete: No new messages or pending updates" ∧
    (runSync env s).2.1 = s ∧
    mainExitCode (runSync env s).1 = 0 := by
  obtain ⟨ca, oc, pu, dr, sv⟩ := s
  simp only at hpend hreg
  subst hpend
  subst hreg
  simp [runSync, h1, h2, h3, h4, h5, h6, hframes, receivePendingAux,
    processExchangeMessages, processExchangeLoop, processCardUpdates,
    processCardUpdatesLoop, processDeviceSyncMessages, sendPendingUpdates_empty,
    sendDeviceSync, buildSummary, mainExitCode]

/-- Card-update oracle used by run-level witnesses. -/
def sampleCardOracle : CardOracle := ⟨fun _ _ => some []⟩

/-- Device fan-out oracle used by run-level witnesses. -/
def sampleSendSync : SendSyncOracle :=
  ⟨true, [0], fun _ => [], fun _ => true, fun _ => true, fun _ => true, fun _ => true⟩

/-- Run environment for the C9 witness: everything connects, nothing is
queued either way. -/
def sampleRunEnv : RunEnv :=
  ⟨true, true, true, true, true, true, sampleCodec, [], sampleExchangeOracle,
    sampleStorage, sampleCardOracle, sampleDsOracle, sampleSendSync,
    fun _ => true, fun _ => true⟩

/-- Witness for C9 at the concrete empty environment. -/
theorem runSync_zero_work_reports_no_messages_witness :
    (runSync sampleRunEnv sampleState).1 =
      .ok "Sync complete: No new messages or pending updates" ∧
    mainExitCode (runSync sampleRunEnv sampleState).1 = 0 := by
  have h := runSync_zero_work_reports_no_messages sampleRunEnv sampleState
    rfl rfl rfl rfl rfl rfl rfl rfl rfl
  exact ⟨h.1, h.2.2⟩

/-- Run environment for the C4 witness: the relay connection fails. -/
def failRunEnv : RunEnv :=
  ⟨true, true, true, false, true, true, sampleCodec, [], sampleExchangeOracle,
    sampleStorage, sampleCardOracle, sampleDsOracle, sampleSendSync,
    fun _ => true, fun _ => true⟩

/-- Witness for the amended C4: a failed connection aborts the concrete
pass with an error, leaves the state alone, and exits 1. -/
theorem runSync_connect_failure_aborts_cleanly_witness :
    (∃ e, (runSync failRunEnv sampleState).1 = Except.error e) ∧
    (runSync failRunEnv sampleState).2.1 = sampleState ∧
    mainExitCode (runSync failRunEnv sampleState).1 = 1 := by
  have h := runSync_connect_failure_aborts_cleanly failRunEnv sampleState rfl
  exact ⟨h.1, h.2.1, h.2.2.2⟩

end VauchiSync
